import Mathlib

/-!
Shallow embedding of the cursor-motion adapter of jieba.vim
(`src/pythonx/jieba_vim/navigation.py` and `src/pythonx/jieba_vim/preview.py`).

Modelling conventions:
* A buffer line is its utf-8 byte sequence (`List Nat`), so the Python
  expression `len(line.encode('utf-8'))` is the list length.
* Cursor positions follow the vim python API: 1-indexed line, 0-indexed byte
  column.
* The external segmentation oracle (`word_motion` methods) is a parameter:
  `Oracle3` for the 3-argument form `(buffer, cursor, count)` and `Oracle4`
  for the 4-argument form `(buffer, cursor, operator, count)`.
* Each wrapper from `navigation.py` is a function from a `VimState` to a new
  `VimState` together with a trace (`List Cmd`) of the externally visible
  commands it issues, in order.  Commands with direct setting semantics
  (`set virtualedit=...`, `let g:... = &virtualedit`, cursor assignment
  through the python API, arming an autocmd group) also update the state;
  commands that run through the editor's normal-mode engine
  (`normal! dd`, `normal! l`, `startinsert`, the re-issued operator) are
  recorded in the trace only, since their textual effect happens inside the
  editor, outside the python layer being embedded.
* Deferred autocmds are modelled as armed flags in the state plus explicit
  event-firing functions (`fire_reset_ve`, `fire_d_special`,
  `fire_text_changed`).
-/

/-- One buffer line as its utf-8 bytes. -/
abbrev Line := List Nat

/-- A buffer is a list of lines, as in `vim.current.buffer`. -/
abbrev Buffer := List Line

/-- A cursor position: 1-indexed line, 0-indexed byte column
(`vim.current.window.cursor`). -/
structure Cursor where
  line : Nat
  col : Nat
deriving DecidableEq, Repr

/-- Result object returned by the oracle methods: a target cursor plus the
`d_special` and `prevent_change` flags. -/
structure MotionResult where
  cursor : Cursor
  d_special : Bool
  prevent_change : Bool
deriving DecidableEq, Repr

/-- Oracle signature `(buffer, cursor, count) -> MotionResult`
(used by nmap, xmap and omap_b/omap_B wrappers). -/
abbrev Oracle3 := Buffer → Cursor → Nat → MotionResult

/-- Oracle signature `(buffer, cursor, operator, count) -> MotionResult`
(used by omap_w/W, omap_e/E, omap_ge/gE wrappers). -/
abbrev Oracle4 := Buffer → Cursor → Char → Nat → MotionResult

/-- `upperbound_count` from `navigation.py`:
`return min(18446744073709551615, count)`. -/
def upperbound_count (count : Nat) : Nat :=
  min 18446744073709551615 count

/-- Modelled from the spec: the editor-side count convention applied by the
plugin's vimscript caller (not under `src/`), which passes `v:count1`-style
counts to the python wrappers: a raw count of 0 or absent is normalized to 1
("no explicit count means once"). -/
def editor_raw_count (raw : Nat) : Nat :=
  if raw = 0 then 1 else raw

/-- The full count normalizer: the modelled editor convention composed with
`upperbound_count` from the source. -/
def normalize_count (raw : Nat) : Nat :=
  upperbound_count (editor_raw_count raw)

/-- `PREVIEW_MAX_LIMIT` from `preview.py`. -/
def PREVIEW_MAX_LIMIT : Int := 99999

/-- The clamping part of `get_preview_limit` from `preview.py`, applied to an
already-parsed integer configuration value:
`if limit < 0: limit = PREVIEW_MAX_LIMIT` then `return min(limit, PREVIEW_MAX_LIMIT)`. -/
def preview_limit_of (limit : Int) : Int :=
  let limit := if limit < 0 then PREVIEW_MAX_LIMIT else limit
  min limit PREVIEW_MAX_LIMIT

/-- `get_preview_limit` from `preview.py`.  The fallible
`int(vim.eval(...))` parse is embedded as an `Option Int`: `none` stands for
the `ValueError` path, which the source catches and replaces by the default 0
(`except ValueError: limit = 0`), so the function is total (never raises). -/
def get_preview_limit (parsed : Option Int) : Int :=
  preview_limit_of (match parsed with
    | some v => v
    | none => 0)

/-- Commands issued by the wrappers through the vim python API, in the order
they are issued.  `oracleCall` records the arguments of one call to a
`word_motion` method: the cursor passed, the operator argument when the
4-argument form is used (`none` for the 3-argument form), and the count. -/
inductive Cmd where
  /-- A call to a `word_motion` oracle method. -/
  | oracleCall (cursor : Cursor) (op : Option Char) (count : Nat)
  /-- `let g:jieba_vim_previous_virtualedit = &virtualedit`. -/
  | saveVe
  /-- `set virtualedit=...` / `execute "set virtualedit=" . g:...`. -/
  | setVe (v : String)
  /-- `vim.current.window.cursor = ...`. -/
  | setCursor (c : Cursor)
  /-- Arming the `jieba_vim_reset_virtualedit` autocmd group
  (TextChanged,CursorMoved, buffer-local, self-removing). -/
  | armResetVeHook
  /-- Arming the `jieba_vim_teardown_d_special` autocmd group (TextChanged,
  buffer-local, self-removing); on neovim the hook's action also repositions
  the cursor to the recorded 1-based column. -/
  | armDSpecialHook (nvimCol1 : Option Nat)
  /-- `normal! dd` (whole-line delete). -/
  | normalDD
  /-- `silent call cursor(line(.), col1)` (1-based column). -/
  | setCursorCol (col1 : Nat)
  /-- `execute "silent normal! {op}[v]:call cursor(line, col1)\<CR>"`:
  re-issues the pending operator over a motion to the given 1-based target. -/
  | execOpMotion (op : Char) (line col1 : Nat) (viz : Bool)
  /-- `normal! l` (single-column-right move). -/
  | normalL
  /-- `startinsert`. -/
  | startinsert
  /-- `normal! m>` (set the mark at the cursor). -/
  | markGtSet
  /-- `normal! gv` (reselect the last visual area). -/
  | normalGv
  /-- Modelled from the spec: arming a one-shot hook on the next mode-change
  event (the cancel-change hook lives in the plugin's vimscript caller, which
  is not under `src/`). -/
  | armModeChangeCancelHook
  /-- Modelled from the spec: the cancel keystroke synthesized by the
  mode-change hook. -/
  | feedCancelKey
deriving DecidableEq, Repr

/-- Whether a command can modify the buffer text: only the whole-line delete
and the re-issued pending operator reach the buffer; everything else moves the
cursor, changes settings, or arms hooks. -/
def Cmd.modifiesBuffer : Cmd → Bool
  | Cmd.normalDD => true
  | Cmd.execOpMotion _ _ _ _ => true
  | _ => false

/-- The editor state visible to the python layer: buffer, cursor, the
`virtualedit` setting, the global `g:jieba_vim_previous_virtualedit`, the
`'>` visual-selection end mark (its `col()` value is 1-based), whether the
editor is neovim, and the armed autocmd hooks. -/
structure VimState where
  buffer : Buffer
  cursor : Cursor
  ve : String
  g_prev : String
  mark_gt_line : Nat
  mark_gt_col : Nat
  has_nvim : Bool
  reset_ve_armed : Bool
  d_special_armed : Bool
  d_special_col : Option Nat
deriving DecidableEq, Repr

/-- Byte length of the 1-indexed buffer line, i.e.
`len(vim.current.buffer[line - 1].encode('utf-8'))`. -/
def bytelenAt (buf : Buffer) (line : Nat) : Nat :=
  (buf.getD (line - 1) []).length

/-- The effective starting cursor computed by the xmap wrappers: with
`line = vim.current.window.cursor[0]` and `col_gt = col("'>") - 1`, if
`col_gt >= len(buffer[line - 1].encode('utf-8'))` the oracle receives
`(line, col_gt)`, otherwise the live cursor.  `col_gt` is an `Int` because
`col("'>")` may be 0 for an unset mark, making `col_gt = -1` in python. -/
def xmap_start (s : VimState) : Cursor :=
  let line := s.cursor.line
  let col_gt : Int := (s.mark_gt_col : Int) - 1
  if (bytelenAt s.buffer line : Int) ≤ col_gt then ⟨line, col_gt.toNat⟩
  else s.cursor

/-- The `nmap_*` wrapper (`_vim_wrapper_factory_n`): clamp the count, call the
oracle on the live cursor, assign the resulting cursor. -/
def nmap_wrapper (oracle : Oracle3) (s : VimState) (count : Nat) :
    VimState × List Cmd :=
  let count := upperbound_count count
  let output := oracle s.buffer s.cursor count
  ({ s with cursor := output.cursor },
    [Cmd.oracleCall s.cursor none count, Cmd.setCursor output.cursor])

/-- The `xmap_*` wrapper (`_vim_wrapper_factory_x`): clamp the count, save
`&virtualedit` into the global, set `virtualedit=onemore`, correct the
starting cursor from the `'>` mark when its column reaches the live-cursor
line's byte length, call the oracle, assign the resulting cursor. -/
def xmap_wrapper (oracle : Oracle3) (s : VimState) (count : Nat) :
    VimState × List Cmd :=
  let count := upperbound_count count
  let s1 := { s with g_prev := s.ve, ve := "onemore" }
  let start := xmap_start s1
  let output := oracle s1.buffer start count
  ({ s1 with cursor := output.cursor },
    [Cmd.saveVe, Cmd.setVe "onemore", Cmd.oracleCall start none count,
      Cmd.setCursor output.cursor])

/-- The `teardown_xmap_*` wrapper (`_vim_wrapper_factory_x`): `normal! m>`,
restore `virtualedit` from the global, `normal! gv`. -/
def teardown_xmap_wrapper (s : VimState) : VimState × List Cmd :=
  let s1 := { s with mark_gt_line := s.cursor.line, mark_gt_col := s.cursor.col + 1 }
  ({ s1 with ve := s1.g_prev },
    [Cmd.markGtSet, Cmd.setVe s1.g_prev, Cmd.normalGv])

/-- The `omap_w`/`omap_W` wrapper (`_vim_wrapper_factory_omap_w`): clamp the
count, save `&virtualedit`, set `virtualedit=onemore`, call the oracle with
the operator, assign the cursor, arm the self-removing
TextChanged,CursorMoved restore autocmd. -/
def omap_w_wrapper (oracle : Oracle4) (s : VimState) (op : Char) (count : Nat) :
    VimState × List Cmd :=
  let count := upperbound_count count
  let s1 := { s with g_prev := s.ve, ve := "onemore" }
  let output := oracle s1.buffer s1.cursor op count
  ({ s1 with cursor := output.cursor, reset_ve_armed := true },
    [Cmd.saveVe, Cmd.setVe "onemore", Cmd.oracleCall s1.cursor (some op) count,
      Cmd.setCursor output.cursor, Cmd.armResetVeHook])

/-- The `omap_e`/`omap_E` wrapper (`_vim_wrapper_factory_omap_e`): as
`omap_w`, recording the pre-motion column, and additionally, when the
operator is `d` and the oracle sets `d_special`, arming the self-removing
TextChanged `jieba_vim_teardown_d_special` autocmd whose action is
`normal! dd` followed, on neovim, by `call cursor(line(.), col_before + 1)`. -/
def omap_e_wrapper (oracle : Oracle4) (s : VimState) (op : Char) (count : Nat) :
    VimState × List Cmd :=
  let count := upperbound_count count
  let s1 := { s with g_prev := s.ve, ve := "onemore" }
  let output := oracle s1.buffer s1.cursor op count
  let col_before := s1.cursor.col
  let s2 := { s1 with cursor := output.cursor, reset_ve_armed := true }
  let base := [Cmd.saveVe, Cmd.setVe "onemore",
    Cmd.oracleCall s1.cursor (some op) count, Cmd.setCursor output.cursor,
    Cmd.armResetVeHook]
  if op = 'd' ∧ output.d_special then
    let nvimCol1 : Option Nat := if s2.has_nvim then some (col_before + 1) else none
    ({ s2 with d_special_armed := true, d_special_col := nvimCol1 },
      base ++ [Cmd.armDSpecialHook nvimCol1])
  else (s2, base)

/-- The `omap_b`/`omap_B` wrapper (`_vim_wrapper_factory_omap_b`): clamp the
count, call the oracle WITHOUT the operator argument (3-argument form); if
`prevent_change`, only assign the cursor; otherwise re-issue the operator via
`normal!` to the 1-based target and, for `c`, shift right one column when the
target column is positive, then `startinsert`. -/
def omap_b_wrapper (oracle : Oracle3) (s : VimState) (op : Char) (count : Nat) :
    VimState × List Cmd :=
  let count := upperbound_count count
  let output := oracle s.buffer s.cursor count
  if output.prevent_change then
    ({ s with cursor := output.cursor },
      [Cmd.oracleCall s.cursor none count, Cmd.setCursor output.cursor])
  else
    let base := [Cmd.oracleCall s.cursor none count,
      Cmd.execOpMotion op output.cursor.line (output.cursor.col + 1) false]
    if op = 'c' then
      (s, base ++ (if 0 < output.cursor.col then [Cmd.normalL] else [])
        ++ [Cmd.startinsert])
    else (s, base)

/-- The `omap_ge`/`omap_gE` wrapper (`_vim_wrapper_factory_omap_ge`): clamp
the count, call the oracle with the operator, record the pre-motion column; if
`prevent_change`, only assign the cursor; otherwise re-issue the operator via
`normal!` with a `v` forced-charwise motion to the 1-based target; for `c`,
shift right when the target column is positive and `startinsert`; for `d` with
`d_special`, synchronously `normal! dd` and, on neovim, reposition to the
recorded column. -/
def omap_ge_wrapper (oracle : Oracle4) (s : VimState) (op : Char) (count : Nat) :
    VimState × List Cmd :=
  let count := upperbound_count count
  let output := oracle s.buffer s.cursor op count
  let col_before := s.cursor.col
  if output.prevent_change then
    ({ s with cursor := output.cursor },
      [Cmd.oracleCall s.cursor (some op) count, Cmd.setCursor output.cursor])
  else
    let base := [Cmd.oracleCall s.cursor (some op) count,
      Cmd.execOpMotion op output.cursor.line (output.cursor.col + 1) true]
    if op = 'c' then
      (s, base ++ (if 0 < output.cursor.col then [Cmd.normalL] else [])
        ++ [Cmd.startinsert])
    else if op = 'd' ∧ output.d_special then
      (s, base ++ [Cmd.normalDD]
        ++ (if s.has_nvim then [Cmd.setCursorCol (col_before + 1)] else []))
    else (s, base)

/-- Firing of the `jieba_vim_reset_virtualedit` autocmd: when armed, restore
`virtualedit` from the global (read at fire time) and disarm; otherwise do
nothing. -/
def fire_reset_ve (s : VimState) : VimState × List Cmd :=
  if s.reset_ve_armed then
    ({ s with ve := s.g_prev, reset_ve_armed := false }, [Cmd.setVe s.g_prev])
  else (s, [])

/-- Firing of the `jieba_vim_teardown_d_special` autocmd: when armed, issue
`normal! dd` followed, on neovim (recorded column present), by the cursor
repositioning, and disarm; otherwise do nothing. -/
def fire_d_special (s : VimState) : VimState × List Cmd :=
  if s.d_special_armed then
    ({ s with d_special_armed := false },
      Cmd.normalDD :: (match s.d_special_col with
        | some c1 => [Cmd.setCursorCol c1]
        | none => []))
  else (s, [])

/-- A TextChanged editor event: both buffer-local autocmd groups match it,
each firing at most once and removing itself. -/
def fire_text_changed (s : VimState) : VimState × List Cmd :=
  let r := fire_reset_ve s
  let d := fire_d_special r.1
  (d.1, r.2 ++ d.2)

/-- The first oracle call recorded in a trace, if any: its cursor argument. -/
def firstOracleCursor : List Cmd → Option Cursor
  | [] => none
  | Cmd.oracleCall c _ _ :: _ => some c
  | _ :: rest => firstOracleCursor rest

/-- The first oracle call recorded in a trace, if any: its operator argument
(`some op` for the 4-argument form, `none` for the 3-argument form). -/
def firstOracleOp : List Cmd → Option (Option Char)
  | [] => none
  | Cmd.oracleCall _ op _ :: _ => some op
  | _ :: rest => firstOracleOp rest

/-- The first oracle call recorded in a trace, if any: its count argument. -/
def firstOracleCount : List Cmd → Option Nat
  | [] => none
  | Cmd.oracleCall _ _ n :: _ => some n
  | _ :: rest => firstOracleCount rest

/-- A chain of k xmap motion invocations (state part), applied left to
right. -/
def xmap_chain (oracle : Oracle3) (count : Nat) : Nat → VimState → VimState
  | 0, s => s
  | Nat.succ k, s => xmap_chain oracle count k (xmap_wrapper oracle s count).1

/-- Modelled from the spec: the part of the change-cancellation protocol that
lives in the plugin's vimscript caller (not under `src/`): when the operator
is `c` and the oracle flags `prevent_change`, a one-shot hook is armed on the
next mode-change event. -/
def cancel_change_hook_cmds (op : Char) (output : MotionResult) : List Cmd :=
  if op = 'c' ∧ output.prevent_change then [Cmd.armModeChangeCancelHook] else []

/-- The `omap_b` wrapper combined with the modelled vimscript cancel-hook
arming. -/
def omap_b_with_cancel (oracle : Oracle3) (s : VimState) (op : Char) (count : Nat) :
    VimState × List Cmd :=
  let r := omap_b_wrapper oracle s op count
  (r.1, r.2 ++ cancel_change_hook_cmds op (oracle s.buffer s.cursor (upperbound_count count)))

/-- The `omap_ge` wrapper combined with the modelled vimscript cancel-hook
arming. -/
def omap_ge_with_cancel (oracle : Oracle4) (s : VimState) (op : Char) (count : Nat) :
    VimState × List Cmd :=
  let r := omap_ge_wrapper oracle s op count
  (r.1, r.2 ++ cancel_change_hook_cmds op (oracle s.buffer s.cursor op (upperbound_count count)))

/-- Modelled from the spec: firing of the one-shot mode-change cancel hook
(vimscript, not under `src/`): when armed, synthesize the cancel keystroke
and disarm. -/
def fire_mode_change (armed : Bool) : Bool × List Cmd :=
  if armed then (false, [Cmd.feedCancelKey]) else (false, [])

/-- A constant oracle for concrete evaluations (3-argument form). -/
def constOracle3 (r : MotionResult) : Oracle3 := fun _ _ _ => r

/-- A constant oracle for concrete evaluations (4-argument form). -/
def constOracle4 (r : MotionResult) : Oracle4 := fun _ _ _ _ => r

/-- A concrete editor state: buffer lines "ab" and "cdef", cursor at line 1
column 0, default (empty) virtualedit, selection-end mark at line 2,
`col("'>") = 5`. -/
def sampleState : VimState where
  buffer := [[97, 98], [99, 100, 101, 102]]
  cursor := ⟨1, 0⟩
  ve := ""
  g_prev := ""
  mark_gt_line := 2
  mark_gt_col := 5
  has_nvim := true
  reset_ve_armed := false
  d_special_armed := false
  d_special_col := none

/-- A concrete oracle flagging `prevent_change` (no backward progress: the
result cursor equals `sampleState`'s starting cursor). -/
def pcOracle3 : Oracle3 := constOracle3 ⟨⟨1, 0⟩, false, true⟩

/-- A concrete oracle flagging `prevent_change` (4-argument form). -/
def pcOracle4 : Oracle4 := constOracle4 ⟨⟨1, 0⟩, false, true⟩

/-- A concrete oracle flagging `d_special` (4-argument form). -/
def dsOracle4 : Oracle4 := constOracle4 ⟨⟨1, 0⟩, true, false⟩

/-- A concrete editor state with the single line "abcdef" and cursor at
(1, 0). -/
def sampleState6 : VimState :=
  { sampleState with
    buffer := [[97, 98, 99, 100, 101, 102]],
    mark_gt_line := 1,
    mark_gt_col := 1 }

/-- A concrete oracle moving to the mid-line target (1, 2). -/
def midOracle3 : Oracle3 := constOracle3 ⟨⟨1, 2⟩, false, false⟩

/-- A concrete oracle moving to the mid-line target (1, 2) (4-argument
form). -/
def midOracle4 : Oracle4 := constOracle4 ⟨⟨1, 2⟩, false, false⟩

/-- C1: every normalized count lies in [1, 2^64 - 1]; 0 normalizes to 1; any
raw count ≥ 2^64 is clamped to 2^64 - 1; the normalizer is a total function
(never raises). -/
theorem normalize_count_range (raw : Nat) :
    1 ≤ normalize_count raw ∧ normalize_count raw ≤ 2 ^ 64 - 1 ∧
      normalize_count 0 = 1 ∧ (2 ^ 64 ≤ raw → normalize_count raw = 2 ^ 64 - 1) := by
  unfold normalize_count upperbound_count editor_raw_count
  refine ⟨?_, ?_, by norm_num, ?_⟩
  · split <;> omega
  · split <;> omega
  · intro h
    split <;> omega

/-- Witness for C1 at the concrete raw counts 0 and 2^64. -/
theorem normalize_count_range_witness :
    normalize_count 0 = 1 ∧ normalize_count (2 ^ 64) = 2 ^ 64 - 1 :=
  ⟨(normalize_count_range 0).2.2.1,
    (normalize_count_range (2 ^ 64)).2.2.2 le_rfl⟩

/-- C9: the effective preview limit of a configured integer v is min v 99999
for positive v, 0 for v = 0, and 99999 for negative v; it always lies in
[0, 99999]. -/
theorem preview_limit_resolution (v : Int) :
    (0 < v → preview_limit_of v = min v 99999) ∧
      (v = 0 → preview_limit_of v = 0) ∧
      (v < 0 → preview_limit_of v = 99999) ∧
      0 ≤ preview_limit_of v ∧ preview_limit_of v ≤ 99999 := by
  unfold preview_limit_of PREVIEW_MAX_LIMIT
  simp only [min_def]
  refine ⟨?_, ?_, ?_, ?_, ?_⟩ <;> split_ifs <;> omega

/-- Witness for C9 at the concrete configured values 7, 0, -1 and 123456. -/
theorem preview_limit_resolution_witness :
    preview_limit_of 7 = min 7 99999 ∧ preview_limit_of 0 = 0 ∧
      preview_limit_of (-1) = 99999 ∧ 0 ≤ preview_limit_of 123456 ∧
      preview_limit_of 123456 ≤ 99999 :=
  ⟨(preview_limit_resolution 7).1 (by norm_num),
    (preview_limit_resolution 0).2.1 rfl,
    (preview_limit_resolution (-1)).2.2.1 (by norm_num),
    (preview_limit_resolution 123456).2.2.2.1,
    (preview_limit_resolution 123456).2.2.2.2⟩

/-- C10: a malformed (unparsable) preview-limit configuration does not raise:
the resolver falls back to 0 and applies the same clamping as a configured 0,
yielding 0 (rest-of-current-line semantics). -/
theorem preview_limit_malformed_fallback :
    get_preview_limit none = 0 ∧
      get_preview_limit none = get_preview_limit (some 0) ∧
      get_preview_limit none = preview_limit_of 0 := by
  refine ⟨rfl, rfl, rfl⟩

/-- Helper: the state part of one xmap motion sets `virtualedit` to
"onemore" and saves the previous `virtualedit` value into the global. -/
theorem xmap_step_ve (oracle : Oracle3) (s : VimState) (count : Nat) :
    (xmap_wrapper oracle s count).1.ve = "onemore" ∧
      (xmap_wrapper oracle s count).1.g_prev = s.ve :=
  ⟨rfl, rfl⟩

/-- Helper: after k ≥ 1 chained xmap motions, the saved global holds the
pre-sequence `virtualedit` value when k = 1 and the adapter's own "onemore"
override when k ≥ 2. -/
theorem xmap_chain_g_prev (oracle : Oracle3) (count : Nat) :
    ∀ (k : Nat) (s : VimState), 1 ≤ k →
      (xmap_chain oracle count k s).g_prev = (if k = 1 then s.ve else "onemore") := by
  intro k
  induction k with
  | zero => intro s h; omega
  | succ n ih =>
    intro s _
    cases n with
    | zero =>
      simp only [xmap_chain, if_pos rfl]
      exact (xmap_step_ve oracle s count).2
    | succ m =>
      have hrw : xmap_chain oracle count (m + 1 + 1) s
          = xmap_chain oracle count (m + 1) (xmap_wrapper oracle s count).1 := rfl
      rw [hrw, ih _ (by omega)]
      rcases Nat.eq_or_lt_of_le (Nat.one_le_iff_ne_zero.mpr (Nat.succ_ne_zero m)) with h1 | h1
      · rw [if_pos h1.symm, if_neg (by omega)]
        exact (xmap_step_ve oracle s count).1
      · rw [if_neg (by omega), if_neg (by omega)]

/-- C8: normalizing an already-clamped count returns it unchanged; every raw
count ≥ 2^64 — in particular exactly 2^64 — normalizes to exactly 2^64 - 1;
the normal-mode wrapper always calls the oracle with the clamped count. -/
theorem upperbound_count_idem (c : Nat) (h1 : 1 ≤ c) (h2 : c ≤ 2 ^ 64 - 1) :
    upperbound_count c = c ∧
      (∀ raw : Nat, 2 ^ 64 ≤ raw → upperbound_count raw = 2 ^ 64 - 1) ∧
      upperbound_count (2 ^ 64) = 2 ^ 64 - 1 ∧
      ∀ (oracle : Oracle3) (s : VimState) (n : Nat),
        firstOracleCount (nmap_wrapper oracle s n).2 = some (upperbound_count n) := by
  refine ⟨?_, ?_, ?_, ?_⟩
  · unfold upperbound_count
    omega
  · intro raw hraw
    unfold upperbound_count
    omega
  · unfold upperbound_count
    omega
  · intro oracle s n
    rfl

/-- Witness for C8 at the concrete already-clamped count 5 and the concrete
oversized raw counts 2^64 and 2^64 + 7. -/
theorem upperbound_count_idem_witness :
    upperbound_count 5 = 5 ∧ upperbound_count (2 ^ 64) = 2 ^ 64 - 1 ∧
      upperbound_count (2 ^ 64 + 7) = 2 ^ 64 - 1 :=
  ⟨(upperbound_count_idem 5 (by norm_num) (by norm_num)).1,
    (upperbound_count_idem 5 (by norm_num) (by norm_num)).2.2.1,
    (upperbound_count_idem 5 (by norm_num) (by norm_num)).2.1 (2 ^ 64 + 7) (by norm_num)⟩

/-- C7 counterexample: the b-family operator-pending wrapper calls the oracle
through the 3-argument form, without the operator tag: for the delete
operator at a concrete state the recorded oracle call carries no operator
argument, so it differs from a call carrying the operator tag. -/
theorem omap_b_operator_counterexample :
    firstOracleOp (omap_b_wrapper midOracle3 sampleState 'd' 1).2 = some none ∧
      some (Option.none : Option Char) ≠ some (some 'd') := by
  exact ⟨by decide, by decide⟩

/-- C7 amended: the w/W, e/E and ge/gE operator-pending wrappers call the
oracle with the operator tag as an argument (4-argument form, so the result
may depend on the operator); the b/B wrappers call the 3-argument form
without the operator. -/
theorem omap_oracle_operator_argument (oracle3 : Oracle3) (oracle4 : Oracle4)
    (s : VimState) (op : Char) (count : Nat) :
    firstOracleOp (omap_w_wrapper oracle4 s op count).2 = some (some op) ∧
      firstOracleOp (omap_e_wrapper oracle4 s op count).2 = some (some op) ∧
      firstOracleOp (omap_ge_wrapper oracle4 s op count).2 = some (some op) ∧
      firstOracleOp (omap_b_wrapper oracle3 s op count).2 = some none := by
  refine ⟨rfl, ?_, ?_, ?_⟩
  · by_cases h1 : op = 'd'
    · subst h1
      cases h2 : (oracle4 s.buffer s.cursor 'd' (upperbound_count count)).d_special <;>
        simp [omap_e_wrapper, h2, firstOracleOp]
    · simp [omap_e_wrapper, h1, firstOracleOp]
  · cases hpc : (oracle4 s.buffer s.cursor op (upperbound_count count)).prevent_change <;>
      by_cases hc : op = 'c'
    · subst hc
      simp_all [omap_ge_wrapper, firstOracleOp]
    · by_cases hd : op = 'd'
      · subst hd
        cases h2 : (oracle4 s.buffer s.cursor 'd' (upperbound_count count)).d_special <;>
          simp_all [omap_ge_wrapper, firstOracleOp]
      · simp_all [omap_ge_wrapper, firstOracleOp]
    · subst hc
      simp_all [omap_ge_wrapper, firstOracleOp]
    · by_cases hd : op = 'd'
      · subst hd
        cases h2 : (oracle4 s.buffer s.cursor 'd' (upperbound_count count)).d_special <;>
          simp_all [omap_ge_wrapper, firstOracleOp]
      · simp_all [omap_ge_wrapper, firstOracleOp]
  · cases hpc : (oracle3 s.buffer s.cursor (upperbound_count count)).prevent_change <;>
      by_cases hc : op = 'c'
    · subst hc
      simp [omap_b_wrapper, hpc, firstOracleOp]
    · simp [omap_b_wrapper, hpc, hc, firstOracleOp]
    · subst hc
      simp [omap_b_wrapper, hpc, firstOracleOp]
    · simp [omap_b_wrapper, hpc, hc, firstOracleOp]

/-- C2 counterexample: two chained visual-mode motions starting from the
default `virtualedit` "" followed by the restoration leave `virtualedit` as
"onemore" — the adapter's own override — not the pre-sequence value "",
because each motion call re-reads the setting into the global. -/
theorem ve_restore_counterexample :
    (teardown_xmap_wrapper
        (xmap_chain midOracle3 1 2 sampleState)).1.ve = "onemore" ∧
      sampleState.ve = "" ∧ ("onemore" : String) ≠ "" := by
  refine ⟨rfl, rfl, by decide⟩

/-- C2 amended: after k ≥ 1 chained visual motions followed by the single
deferred restoration, the virtual-edit setting is restored exactly once, to
the value saved by the LAST motion call (the saved value is re-read at every
individual motion call, not once per sequence): the pre-sequence value when
k = 1, the adapter's own "onemore" override when k ≥ 2; the deferred restore
hook of the operator-pending protocol fires at most once per arming (a second
fire issues nothing). -/
theorem ve_restore_last_saved (oracle : Oracle3) (count : Nat) (s : VimState)
    (k : Nat) (h : 1 ≤ k) :
    (teardown_xmap_wrapper (xmap_chain oracle count k s)).1.ve
        = (if k = 1 then s.ve else "onemore") ∧
      ∀ t : VimState, (fire_reset_ve (fire_reset_ve t).1).2 = [] := by
  constructor
  · have hteardown : ∀ u : VimState, (teardown_xmap_wrapper u).1.ve = u.g_prev :=
      fun u => rfl
    rw [hteardown, xmap_chain_g_prev oracle count k s h]
  · intro t
    cases ht : t.reset_ve_armed <;> simp [fire_reset_ve, ht]

/-- Witness for C2 (amended) at k = 1 on a concrete state and oracle. -/
theorem ve_restore_last_saved_witness :
    (teardown_xmap_wrapper (xmap_chain midOracle3 1 1 sampleState)).1.ve
      = (if 1 = 1 then sampleState.ve else "onemore") :=
  (ve_restore_last_saved midOracle3 1 sampleState 1 le_rfl).1

/-- C3 counterexample: live cursor at line 1 of the buffer ["ab", "cdef"],
selection-end mark at line 2 with col("'>") = 5; the boundary column 4 is ≥
the byte length of either line, yet the oracle is called with (1, 4) — the
LIVE CURSOR's line paired with the boundary column — not with the boundary
position (2, 4) as the claim states. -/
theorem xmap_boundary_counterexample :
    (bytelenAt sampleState.buffer sampleState.cursor.line : Int)
        ≤ (sampleState.mark_gt_col : Int) - 1 ∧
      (bytelenAt sampleState.buffer sampleState.mark_gt_line : Int)
        ≤ (sampleState.mark_gt_col : Int) - 1 ∧
      firstOracleCursor (xmap_wrapper midOracle3 sampleState 1).2 = some ⟨1, 4⟩ ∧
      sampleState.mark_gt_line = 2 ∧
      some (⟨1, 4⟩ : Cursor) ≠ some (⟨2, 4⟩ : Cursor) := by
  refine ⟨by decide, by decide, by decide, rfl, by decide⟩

/-- C3 amended: in visual mode, when the boundary column col("'>") - 1 is at
least the byte length of the LIVE CURSOR's line, the oracle is called with
(live-cursor line, boundary column) verbatim; otherwise it is called with the
live cursor unmodified; no such correction exists in the normal-mode or
operator-pending wrappers, which always pass the live cursor. -/
theorem xmap_boundary_correction (oracle3 : Oracle3) (oracle4 : Oracle4)
    (s : VimState) (op : Char) (count : Nat) :
    ((bytelenAt s.buffer s.cursor.line : Int) ≤ (s.mark_gt_col : Int) - 1 →
        firstOracleCursor (xmap_wrapper oracle3 s count).2
          = some ⟨s.cursor.line, ((s.mark_gt_col : Int) - 1).toNat⟩) ∧
      (¬ (bytelenAt s.buffer s.cursor.line : Int) ≤ (s.mark_gt_col : Int) - 1 →
        firstOracleCursor (xmap_wrapper oracle3 s count).2 = some s.cursor) ∧
      firstOracleCursor (nmap_wrapper oracle3 s count).2 = some s.cursor ∧
      firstOracleCursor (omap_w_wrapper oracle4 s op count).2 = some s.cursor ∧
      firstOracleCursor (omap_e_wrapper oracle4 s op count).2 = some s.cursor ∧
      firstOracleCursor (omap_b_wrapper oracle3 s op count).2 = some s.cursor ∧
      firstOracleCursor (omap_ge_wrapper oracle4 s op count).2 = some s.cursor := by
  have hx : firstOracleCursor (xmap_wrapper oracle3 s count).2
      = some (xmap_start { s with g_prev := s.ve, ve := "onemore" }) := rfl
  refine ⟨?_, ?_, rfl, rfl, ?_, ?_, ?_⟩
  · intro h
    rw [hx]
    unfold xmap_start
    rw [if_pos h]
  · intro h
    rw [hx]
    unfold xmap_start
    rw [if_neg h]
  · by_cases h1 : op = 'd'
    · subst h1
      cases h2 : (oracle4 s.buffer s.cursor 'd' (upperbound_count count)).d_special <;>
        simp [omap_e_wrapper, h2, firstOracleCursor]
    · simp [omap_e_wrapper, h1, firstOracleCursor]
  · cases hpc : (oracle3 s.buffer s.cursor (upperbound_count count)).prevent_change <;>
      by_cases hc : op = 'c'
    · subst hc
      simp [omap_b_wrapper, hpc, firstOracleCursor]
    · simp [omap_b_wrapper, hpc, hc, firstOracleCursor]
    · subst hc
      simp [omap_b_wrapper, hpc, firstOracleCursor]
    · simp [omap_b_wrapper, hpc, hc, firstOracleCursor]
  · cases hpc : (oracle4 s.buffer s.cursor op (upperbound_count count)).prevent_change <;>
      by_cases hc : op = 'c'
    · subst hc
      simp_all [omap_ge_wrapper, firstOracleCursor]
    · by_cases hd : op = 'd'
      · subst hd
        cases h2 : (oracle4 s.buffer s.cursor 'd' (upperbound_count count)).d_special <;>
          simp_all [omap_ge_wrapper, firstOracleCursor]
      · simp_all [omap_ge_wrapper, firstOracleCursor]
    · subst hc
      simp_all [omap_ge_wrapper, firstOracleCursor]
    · by_cases hd : op = 'd'
      · subst hd
        cases h2 : (oracle4 s.buffer s.cursor 'd' (upperbound_count count)).d_special <;>
          simp_all [omap_ge_wrapper, firstOracleCursor]
      · simp_all [omap_ge_wrapper, firstOracleCursor]

/-- Witness for C3 (amended): both branches of the correction at concrete
states — the corrected start at `sampleState` (boundary column past the
cursor line), and the unmodified live cursor at `sampleState6`. -/
theorem xmap_boundary_correction_witness :
    firstOracleCursor (xmap_wrapper midOracle3 sampleState 1).2
        = some ⟨sampleState.cursor.line, ((sampleState.mark_gt_col : Int) - 1).toNat⟩ ∧
      firstOracleCursor (xmap_wrapper midOracle3 sampleState6 1).2
        = some sampleState6.cursor :=
  ⟨(xmap_boundary_correction midOracle3 midOracle4 sampleState 'd' 1).1 (by decide),
    (xmap_boundary_correction midOracle3 midOracle4 sampleState6 'd' 1).2.1 (by decide)⟩

/-- C4: for a change-operator b/B or ge/gE motion whose oracle result flags
`prevent_change`, the python wrapper issues no buffer-modifying command and
never enters insertion (no `startinsert` in its trace; the state's buffer is
unchanged), and the modelled vimscript layer arms the one-shot mode-change
cancel hook, whose firing synthesizes the cancel keystroke and disarms, so a
second fire issues nothing. -/
theorem prevent_change_cancels (oracle3 : Oracle3) (oracle4 : Oracle4)
    (s : VimState) (count : Nat)
    (h3 : (oracle3 s.buffer s.cursor (upperbound_count count)).prevent_change = true)
    (h4 : (oracle4 s.buffer s.cursor 'c' (upperbound_count count)).prevent_change = true) :
    (∀ c ∈ (omap_b_with_cancel oracle3 s 'c' count).2, c.modifiesBuffer = false) ∧
      Cmd.startinsert ∉ (omap_b_with_cancel oracle3 s 'c' count).2 ∧
      (omap_b_with_cancel oracle3 s 'c' count).1.buffer = s.buffer ∧
      Cmd.armModeChangeCancelHook ∈ (omap_b_with_cancel oracle3 s 'c' count).2 ∧
      (∀ c ∈ (omap_ge_with_cancel oracle4 s 'c' count).2, c.modifiesBuffer = false) ∧
      Cmd.startinsert ∉ (omap_ge_with_cancel oracle4 s 'c' count).2 ∧
      (omap_ge_with_cancel oracle4 s 'c' count).1.buffer = s.buffer ∧
      Cmd.armModeChangeCancelHook ∈ (omap_ge_with_cancel oracle4 s 'c' count).2 ∧
      fire_mode_change true = (false, [Cmd.feedCancelKey]) ∧
      (fire_mode_change (fire_mode_change true).1).2 = [] := by
  refine ⟨?_, ?_, ?_, ?_, ?_, ?_, ?_, ?_, rfl, rfl⟩ <;>
    simp [omap_b_with_cancel, omap_b_wrapper, omap_ge_with_cancel,
      omap_ge_wrapper, cancel_change_hook_cmds, h3, h4, Cmd.modifiesBuffer]

/-- Witness for C4 at a concrete state and prevent-change oracles. -/
theorem prevent_change_cancels_witness :
    Cmd.armModeChangeCancelHook ∈ (omap_b_with_cancel pcOracle3 sampleState 'c' 1).2 ∧
      Cmd.startinsert ∉ (omap_b_with_cancel pcOracle3 sampleState 'c' 1).2 ∧
      Cmd.armModeChangeCancelHook ∈ (omap_ge_with_cancel pcOracle4 sampleState 'c' 1).2 :=
  ⟨(prevent_change_cancels pcOracle3 pcOracle4 sampleState 1 rfl rfl).2.2.2.1,
    (prevent_change_cancels pcOracle3 pcOracle4 sampleState 1 rfl rfl).2.1,
    (prevent_change_cancels pcOracle3 pcOracle4 sampleState 1 rfl rfl).2.2.2.2.2.2.2.1⟩

/-- C5 counterexample: for a ge-family delete motion whose oracle result
flags `d_special`, the whole-line delete is issued synchronously during the
motion call and no text-changed hook is armed, contradicting the claimed
deferral to the next text-changed event. -/
theorem d_special_ge_sync_counterexample :
    Cmd.normalDD ∈ (omap_ge_wrapper dsOracle4 sampleState 'd' 1).2 ∧
      (omap_ge_wrapper dsOracle4 sampleState 'd' 1).1.d_special_armed = false := by
  exact ⟨by decide, by decide⟩

/-- C5 amended: for e/E-family delete motions with `d_special` the correction
is deferred exactly as claimed: no whole-line delete is issued synchronously,
a one-shot TextChanged hook is armed whose firing issues `normal! dd`
followed, on neovim, by repositioning to the pre-motion column, and a second
text-changed event fires nothing; for ge/gE-family delete motions the
whole-line delete (and the neovim repositioning) is issued synchronously
during the motion call and no hook is armed. -/
theorem d_special_correction (oracle4 : Oracle4) (s : VimState) (count : Nat)
    (hd : (oracle4 s.buffer s.cursor 'd' (upperbound_count count)).d_special = true)
    (hp : (oracle4 s.buffer s.cursor 'd' (upperbound_count count)).prevent_change = false) :
    Cmd.normalDD ∉ (omap_e_wrapper oracle4 s 'd' count).2 ∧
      (omap_e_wrapper oracle4 s 'd' count).1.d_special_armed = true ∧
      (fire_text_changed (omap_e_wrapper oracle4 s 'd' count).1).2
        = [Cmd.setVe s.ve, Cmd.normalDD]
          ++ (if s.has_nvim then [Cmd.setCursorCol (s.cursor.col + 1)] else []) ∧
      (fire_text_changed (fire_text_changed (omap_e_wrapper oracle4 s 'd' count).1).1).2 = [] ∧
      Cmd.normalDD ∈ (omap_ge_wrapper oracle4 s 'd' count).2 ∧
      (s.has_nvim = true →
        Cmd.setCursorCol (s.cursor.col + 1) ∈ (omap_ge_wrapper oracle4 s 'd' count).2) ∧
      (omap_ge_wrapper oracle4 s 'd' count).1.d_special_armed = s.d_special_armed := by
  refine ⟨?_, ?_, ?_, ?_, ?_, ?_, ?_⟩
  · simp [omap_e_wrapper, hd]
  · simp [omap_e_wrapper, hd]
  · cases hn : s.has_nvim <;>
      simp [omap_e_wrapper, hd, hn, fire_text_changed, fire_reset_ve, fire_d_special]
  · cases hn : s.has_nvim <;>
      simp [omap_e_wrapper, hd, hn, fire_text_changed, fire_reset_ve, fire_d_special]
  · simp [omap_ge_wrapper, hd, hp]
  · intro hn
    simp [omap_ge_wrapper, hd, hp, hn]
  · simp [omap_ge_wrapper, hd, hp]

/-- Witness for C5 (amended) at a concrete state and d-special oracle. -/
theorem d_special_correction_witness :
    Cmd.normalDD ∉ (omap_e_wrapper dsOracle4 sampleState 'd' 1).2 ∧
      (omap_e_wrapper dsOracle4 sampleState 'd' 1).1.d_special_armed = true ∧
      (fire_text_changed (omap_e_wrapper dsOracle4 sampleState 'd' 1).1).2
        = [Cmd.setVe sampleState.ve, Cmd.normalDD]
          ++ (if sampleState.has_nvim
              then [Cmd.setCursorCol (sampleState.cursor.col + 1)] else []) :=
  ⟨(d_special_correction dsOracle4 sampleState 1 rfl rfl).1,
    (d_special_correction dsOracle4 sampleState 1 rfl rfl).2.1,
    (d_special_correction dsOracle4 sampleState 1 rfl rfl).2.2.1⟩

/-- C6 counterexample: a change-operator e-family motion to the mid-line
target (1, 2) of the single-line buffer "abcdef" (so a single-column-right
move from the target would not pass the line's last character): the wrapper's
trace contains neither the compensating right move nor any entry into
insertion mode. -/
theorem omap_e_change_counterexample :
    Cmd.startinsert ∉ (omap_e_wrapper midOracle4 sampleState6 'c' 1).2 ∧
      Cmd.normalL ∉ (omap_e_wrapper midOracle4 sampleState6 'c' 1).2 ∧
      2 + 1 < bytelenAt sampleState6.buffer 1 := by
  refine ⟨by decide, by decide, by decide⟩

/-- C6 amended: the compensating single-column-right move before entering
insertion is issued by the b/B and ge/gE change wrappers, not the e/E ones:
when `prevent_change` is false they re-issue the operator, then `normal! l`
exactly when the target column is positive, then `startinsert`; the e/E
change wrappers issue neither the move nor `startinsert` (insertion there is
left to the editor's own pending-operator application). -/
theorem change_compensation (oracle3 : Oracle3) (oracle4 : Oracle4)
    (s : VimState) (count : Nat)
    (hp3 : (oracle3 s.buffer s.cursor (upperbound_count count)).prevent_change = false)
    (hp4 : (oracle4 s.buffer s.cursor 'c' (upperbound_count count)).prevent_change = false) :
    (omap_b_wrapper oracle3 s 'c' count).2
        = [Cmd.oracleCall s.cursor none (upperbound_count count),
            Cmd.execOpMotion 'c'
              (oracle3 s.buffer s.cursor (upperbound_count count)).cursor.line
              ((oracle3 s.buffer s.cursor (upperbound_count count)).cursor.col + 1) false]
          ++ (if 0 < (oracle3 s.buffer s.cursor (upperbound_count count)).cursor.col
              then [Cmd.normalL] else [])
          ++ [Cmd.startinsert] ∧
      (omap_ge_wrapper oracle4 s 'c' count).2
        = [Cmd.oracleCall s.cursor (some 'c') (upperbound_count count),
            Cmd.execOpMotion 'c'
              (oracle4 s.buffer s.cursor 'c' (upperbound_count count)).cursor.line
              ((oracle4 s.buffer s.cursor 'c' (upperbound_count count)).cursor.col + 1) true]
          ++ (if 0 < (oracle4 s.buffer s.cursor 'c' (upperbound_count count)).cursor.col
              then [Cmd.normalL] else [])
          ++ [Cmd.startinsert] ∧
      Cmd.startinsert ∉ (omap_e_wrapper oracle4 s 'c' count).2 ∧
      Cmd.normalL ∉ (omap_e_wrapper oracle4 s 'c' count).2 := by
  refine ⟨?_, ?_, ?_, ?_⟩
  · simp [omap_b_wrapper, hp3]
  · simp [omap_ge_wrapper, hp4]
  · simp [omap_e_wrapper]
  · simp [omap_e_wrapper]

/-- Witness for C6 (amended) at a concrete state and mid-line oracle with a
positive target column. -/
theorem change_compensation_witness :
    (omap_b_wrapper midOracle3 sampleState6 'c' 1).2
      = [Cmd.oracleCall ⟨1, 0⟩ none 1, Cmd.execOpMotion 'c' 1 3 false,
          Cmd.normalL, Cmd.startinsert] :=
  ((change_compensation midOracle3 midOracle4 sampleState6 1 rfl rfl).1).trans (by decide)
